import Mathlib

/-!
# MiniHub SDK — verification of the ledger access and transaction-construction layer

A shallow embedding of the read path (object decoding, registry scanning,
side-record walking, query facade) and of the transaction builder of
`src/sdk/minihub-sdk.ts`, with theorems settling the spec claims.

Conventions of the embedding:
* A raw ledger object arrives as a JSON envelope `{ data?: { content?: { dataType, fields } } }`.
  Absent JS values (`undefined` / `null`) are modelled as `none`.
* `fields` is an untyped string-keyed bag in the source (`as any`); it is modelled as a
  record carrying every key any decoder reads, each key optional.
* `fields.id` is the Sui UID wrapper `{ id: string }`; we model directly the inner string.
  When `fields.id` is absent the source expression `fields.id.id` raises a `TypeError`
  which the surrounding `try/catch` turns into `null`; the embedding returns `none` there.
* u64 values arrive rendered as decimal strings; a present `"0"` is a nonempty string and
  hence truthy in JS, so a present on-chain salary of 0 decodes to `some 0`.
* `Number(undefined)` is `NaN`; a numeric field decoded from an absent key is `none`.
-/

/-- The package/object-id configuration handed to the SDK constructor. -/
structure PackageConfig where
  packageId : String
  jobBoardId : String
  userRegistryId : String
  employerRegistryId : String
  clockId : String
deriving DecidableEq

/-- The untyped field bag of a move object (`content.fields as any`).
Every key any decoder reads is present as an optional slot; `none` models a missing key.
`id` is the inner string of the UID wrapper (`fields.id.id`); `id = none` models a missing
`fields.id`, whose access raises in the source. The source key `bio` is modelled as
`bioText`. -/
structure RawFields where
  id : Option String := none
  employer : Option String := none
  employer_profile_id : Option String := none
  title : Option String := none
  description : Option String := none
  salary : Option Nat := none
  application_count : Option Nat := none
  hired_candidate : Option String := none
  is_active : Option Bool := none
  deadline : Option Nat := none
  job_count : Option Nat := none
  job_ids : Option (List String) := none
  user_address : Option String := none
  name : Option String := none
  bioText : Option String := none
  avatar_url : Option String := none
  skills : Option (List String) := none
  experience_years : Option Nat := none
  portfolio_url : Option String := none
  created_at : Option Nat := none
  updated_at : Option Nat := none
  employer_address : Option String := none
  company_name : Option String := none
  logo_url : Option String := none
  website : Option String := none
  industry : Option String := none
  employee_count : Option Nat := none
  founded_year : Option Nat := none
  user_profiles : Option (List String) := none
  user_count : Option Nat := none
  employer_profiles : Option (List String) := none
  employer_count : Option Nat := none
  candidate : Option String := none
  user_profile_id : Option String := none
  job_id : Option String := none
  cover_message : Option String := none
  timestamp : Option Nat := none
  cv_url : Option String := none
deriving DecidableEq

/-- `object.data.content`: the declared kind plus the field bag. -/
structure MoveContent where
  dataType : String
  fields : RawFields
deriving DecidableEq

/-- `object.data`: optionally carries content (content is requested with `showContent`). -/
structure SuiObjectData where
  content : Option MoveContent
deriving DecidableEq

/-- The envelope returned by the ledger read primitive `getObject`. -/
structure SuiResponse where
  data : Option SuiObjectData
deriving DecidableEq

/-- The ledger read primitives consumed by the SDK: fetch-object-by-id and
fetch-dynamic-fields-by-parent (returning the child object ids). -/
structure Ledger where
  getObject : String → SuiResponse
  getDynamicFields : String → List String

/-- Decoded `Job` as the JS code actually produces it: every projected field except the
id can be `undefined` when the raw bag misses the key, hence option-typed. -/
structure Job where
  id : String
  employer : Option String
  employerProfileId : Option String
  title : Option String
  description : Option String
  salary : Option Nat
  applicationCount : Option Nat
  hiredCandidate : Option String
  isActive : Option Bool
  deadline : Option Nat
deriving DecidableEq

/-- Decoded `JobBoard`. `jobCount = none` models `Number(undefined) = NaN`. -/
structure JobBoard where
  id : String
  jobCount : Option Nat
  jobIds : List String
deriving DecidableEq

/-- Decoded `UserProfile` (source field `bio` modelled as `bioText`). -/
structure UserProfile where
  id : String
  userAddress : Option String
  name : Option String
  bioText : Option String
  avatarUrl : Option String
  skills : List String
  experienceYears : Option Nat
  portfolioUrl : Option String
  createdAt : Option Nat
  updatedAt : Option Nat
deriving DecidableEq

/-- Decoded `EmployerProfile`. -/
structure EmployerProfile where
  id : String
  employerAddress : Option String
  companyName : Option String
  description : Option String
  logoUrl : Option String
  website : Option String
  industry : Option String
  employeeCount : Option Nat
  foundedYear : Option Nat
  createdAt : Option Nat
  updatedAt : Option Nat
deriving DecidableEq

/-- Decoded `UserRegistry`. -/
structure UserRegistry where
  id : String
  userProfiles : List String
  userCount : Option Nat
deriving DecidableEq

/-- Decoded `EmployerRegistry`. -/
structure EmployerRegistry where
  id : String
  employerProfiles : List String
  employerCount : Option Nat
deriving DecidableEq

/-- Decoded `ApplicationProfile` (a side-record attached to a Job). -/
structure ApplicationProfile where
  id : String
  candidate : Option String
  userProfileId : Option String
  jobId : Option String
  coverMessage : Option String
  timestamp : Option Nat
  cvUrl : Option String
deriving DecidableEq

/-- `getJob`: fetch the envelope, return `null` on missing data/content or wrong kind,
otherwise project the fields. A missing `fields.id` raises in the source and is caught
by the `try/catch`, also yielding `null`. `hired_candidate || undefined` maps the empty
string to `undefined`; `salary ? Number(salary) : undefined` keeps any present value
(a u64 is rendered as a nonempty string, truthy even for `"0"`). -/
def getJob (L : Ledger) (jobId : String) : Option Job :=
  let object := L.getObject jobId
  match object.data with
  | none => none
  | some d =>
    match d.content with
    | none => none
    | some c =>
      if c.dataType = "moveObject" then
        match c.fields.id with
        | none => none
        | some uid =>
          some {
            id := uid
            employer := c.fields.employer
            employerProfileId := c.fields.employer_profile_id
            title := c.fields.title
            description := c.fields.description
            salary := match c.fields.salary with | some v => some v | none => none
            applicationCount := c.fields.application_count
            hiredCandidate :=
              match c.fields.hired_candidate with
              | some s => if s = "" then none else some s
              | none => none
            isActive := c.fields.is_active
            deadline := c.fields.deadline }
      else none

/-- `getJobBoard`: same envelope checks; `job_ids || []` defaults a missing list. -/
def getJobBoard (L : Ledger) (cfg : PackageConfig) : Option JobBoard :=
  let object := L.getObject cfg.jobBoardId
  match object.data with
  | none => none
  | some d =>
    match d.content with
    | none => none
    | some c =>
      if c.dataType = "moveObject" then
        match c.fields.id with
        | none => none
        | some uid =>
          some {
            id := uid
            jobCount := c.fields.job_count
            jobIds := c.fields.job_ids.getD [] }
      else none

/-- `getUserProfile`. -/
def getUserProfile (L : Ledger) (profileId : String) : Option UserProfile :=
  let object := L.getObject profileId
  match object.data with
  | none => none
  | some d =>
    match d.content with
    | none => none
    | some c =>
      if c.dataType = "moveObject" then
        match c.fields.id with
        | none => none
        | some uid =>
          some {
            id := uid
            userAddress := c.fields.user_address
            name := c.fields.name
            bioText := c.fields.bioText
            avatarUrl := c.fields.avatar_url
            skills := c.fields.skills.getD []
            experienceYears := c.fields.experience_years
            portfolioUrl := c.fields.portfolio_url
            createdAt := c.fields.created_at
            updatedAt := c.fields.updated_at }
      else none

/-- `getEmployerProfile`. -/
def getEmployerProfile (L : Ledger) (profileId : String) : Option EmployerProfile :=
  let object := L.getObject profileId
  match object.data with
  | none => none
  | some d =>
    match d.content with
    | none => none
    | some c =>
      if c.dataType = "moveObject" then
        match c.fields.id with
        | none => none
        | some uid =>
          some {
            id := uid
            employerAddress := c.fields.employer_address
            companyName := c.fields.company_name
            description := c.fields.description
            logoUrl := c.fields.logo_url
            website := c.fields.website
            industry := c.fields.industry
            employeeCount := c.fields.employee_count
            foundedYear := c.fields.founded_year
            createdAt := c.fields.created_at
            updatedAt := c.fields.updated_at }
      else none

/-- `getUserRegistry`. -/
def getUserRegistry (L : Ledger) (cfg : PackageConfig) : Option UserRegistry :=
  let object := L.getObject cfg.userRegistryId
  match object.data with
  | none => none
  | some d =>
    match d.content with
    | none => none
    | some c =>
      if c.dataType = "moveObject" then
        match c.fields.id with
        | none => none
        | some uid =>
          some {
            id := uid
            userProfiles := c.fields.user_profiles.getD []
            userCount := c.fields.user_count }
      else none

/-- `getEmployerRegistry`. -/
def getEmployerRegistry (L : Ledger) (cfg : PackageConfig) : Option EmployerRegistry :=
  let object := L.getObject cfg.employerRegistryId
  match object.data with
  | none => none
  | some d =>
    match d.content with
    | none => none
    | some c =>
      if c.dataType = "moveObject" then
        match c.fields.id with
        | none => none
        | some uid =>
          some {
            id := uid
            employerProfiles := c.fields.employer_profiles.getD []
            employerCount := c.fields.employer_count }
      else none

/-- `getAllJobs`: read the board, fetch every listed id, keep the successful decodes
(the `filter(job => job !== null)` over the `Promise.all` array), in registry order. -/
def getAllJobs (L : Ledger) (cfg : PackageConfig) : List Job :=
  match getJobBoard L cfg with
  | none => []
  | some jobBoard => ((jobBoard.jobIds.map (fun jobId => getJob L jobId))).reduceOption

/-- The filter predicate of `getActiveJobs`: `job.isActive && !job.hiredCandidate`.
JS truthiness: `isActive` must be literally `true`; `hiredCandidate` must be unset. -/
def activeJobFilter (job : Job) : Bool :=
  (match job.isActive with | some true => true | _ => false) && job.hiredCandidate.isNone

/-- `getActiveJobs`: `getAllJobs` filtered by `activeJobFilter`. -/
def getActiveJobs (L : Ledger) (cfg : PackageConfig) : List Job :=
  (getAllJobs L cfg).filter activeJobFilter

/-- `getJobsByEmployer`: `getAllJobs` filtered by employer address equality. -/
def getJobsByEmployer (L : Ledger) (cfg : PackageConfig) (employerAddress : String) : List Job :=
  (getAllJobs L cfg).filter (fun job => job.employer == some employerAddress)

/-- `getAllUserProfiles`: registry scan over the user registry. -/
def getAllUserProfiles (L : Ledger) (cfg : PackageConfig) : List UserProfile :=
  match getUserRegistry L cfg with
  | none => []
  | some registry =>
      ((registry.userProfiles.map (fun profileId => getUserProfile L profileId))).reduceOption

/-- `getAllEmployerProfiles`: registry scan over the employer registry. -/
def getAllEmployerProfiles (L : Ledger) (cfg : PackageConfig) : List EmployerProfile :=
  match getEmployerRegistry L cfg with
  | none => []
  | some registry =>
      ((registry.employerProfiles.map (fun profileId => getEmployerProfile L profileId))).reduceOption

/-- `getUserProfileByAddress`: first profile whose `userAddress` strictly equals the
queried address (`find(...) || null`). -/
def getUserProfileByAddress (L : Ledger) (cfg : PackageConfig) (userAddress : String) :
    Option UserProfile :=
  (getAllUserProfiles L cfg).find? (fun profile => profile.userAddress == some userAddress)

/-- `getEmployerProfileByAddress`: employer-side analogue. -/
def getEmployerProfileByAddress (L : Ledger) (cfg : PackageConfig) (employerAddress : String) :
    Option EmployerProfile :=
  (getAllEmployerProfiles L cfg).find? (fun profile => profile.employerAddress == some employerAddress)

/-- Projection of the application field bag (`fields` inside the per-child loop of
`getJobApplications` / `getApplication`). A missing `fields.id` makes `fields.id.id`
raise; the error escapes the loop to the surrounding `try/catch`, modelled as `Except`. -/
def decodeApplicationFields (f : RawFields) : Except Unit ApplicationProfile :=
  match f.id with
  | none => Except.error ()
  | some uid =>
    Except.ok {
      id := uid
      candidate := f.candidate
      userProfileId := f.user_profile_id
      jobId := f.job_id
      coverMessage := f.cover_message
      timestamp := f.timestamp
      cvUrl := f.cv_url }

/-- The per-child loop of `getJobApplications`: fetch each dynamic-field object, skip
envelopes that fail the data/content/kind checks, push each decoded application in
enumeration order; a raise inside a decode aborts the whole loop. -/
def applicationsLoop (L : Ledger) : List String → Except Unit (List ApplicationProfile)
  | [] => Except.ok []
  | fieldId :: rest =>
    let fieldObject := L.getObject fieldId
    match fieldObject.data with
    | none => applicationsLoop L rest
    | some d =>
      match d.content with
      | none => applicationsLoop L rest
      | some c =>
        if c.dataType = "moveObject" then
          match decodeApplicationFields c.fields with
          | Except.error e => Except.error e
          | Except.ok app =>
            match applicationsLoop L rest with
            | Except.error e => Except.error e
            | Except.ok apps => Except.ok (app :: apps)
        else applicationsLoop L rest

/-- `getJobApplications`: enumerate the dynamic fields under the job id and run the
loop; the `catch` turns a raise into the empty list. -/
def getJobApplications (L : Ledger) (jobId : String) : List ApplicationProfile :=
  match applicationsLoop L (L.getDynamicFields jobId) with
  | Except.ok apps => apps
  | Except.error _ => []

/-- `isJobDeadlinePassed`: `Date.now() > job.deadline`. The current time is passed
explicitly. A `NaN` deadline (decoded `none`) makes the comparison false. -/
def isJobDeadlinePassed (now : Nat) (job : Job) : Bool :=
  match job.deadline with
  | some d => decide (now > d)
  | none => false

/-- `isJobActive`: `job.isActive && !job.hiredCandidate && !isJobDeadlinePassed(job)`. -/
def isJobActive (now : Nat) (job : Job) : Bool :=
  (match job.isActive with | some true => true | _ => false)
    && job.hiredCandidate.isNone && !(isJobDeadlinePassed now job)

/-- The record returned by `getStatistics`. `totalApplications` is a JS sum that a
`NaN` application count poisons, hence option-typed. -/
structure Statistics where
  totalJobs : Nat
  activeJobs : Nat
  totalApplications : Option Nat
  totalUsers : Nat
  totalEmployers : Nat
  filledJobs : Nat
deriving DecidableEq

/-- `getStatistics`: aggregate over the board, both registries and a full job scan.
`jobBoard?.jobCount || 0` collapses a missing board, a `NaN` count and a zero count
to 0, modelled by `Option.getD 0` on the optional count. -/
def getStatistics (L : Ledger) (cfg : PackageConfig) (now : Nat) : Statistics :=
  let jobBoard := getJobBoard L cfg
  let userRegistry := getUserRegistry L cfg
  let employerRegistry := getEmployerRegistry L cfg
  let allJobs := getAllJobs L cfg
  { totalJobs := match jobBoard with | some b => b.jobCount.getD 0 | none => 0
    activeJobs := (allJobs.filter (fun job => isJobActive now job)).length
    totalApplications :=
      allJobs.foldl
        (fun sum job =>
          match sum, job.applicationCount with
          | some s, some c => some (s + c)
          | _, _ => none)
        (some 0)
    totalUsers := match userRegistry with | some r => r.userCount.getD 0 | none => 0
    totalEmployers := match employerRegistry with | some r => r.employerCount.getD 0 | none => 0
    filledJobs := (allJobs.filter (fun job => job.hiredCandidate.isSome)).length }

/-- One argument of a move call, tagged with its encoding
(`tx.object`, `tx.pure(..., 'string' | 'u64' | 'address' | 'vector<u64>' | 'vector<string>')`). -/
inductive CallArg where
  | obj (objectId : String)
  | pureStr (s : String)
  | pureU64 (n : Nat)
  | pureAddr (a : String)
  | pureVecU64 (l : List Nat)
  | pureVecStr (l : List String)
deriving DecidableEq

/-- The call description a transaction-builder method assembles:
target entry point plus the ordered argument list. -/
structure MoveCall where
  target : String
  arguments : List CallArg
deriving DecidableEq

/-- Parameter record of `createPostJobTransaction`. -/
structure PostJobParams where
  employerProfileId : String
  title : String
  description : String
  salary : Option Nat
  deadline : Nat
deriving DecidableEq

/-- `createPostJobTransaction`: builds the `post_job` call. The salary argument is
`params.salary ? tx.pure([params.salary], 'vector<u64>') : tx.pure([], 'vector<u64>')`;
JS truthiness makes a present salary of 0 take the empty-vector branch. -/
def createPostJobTransaction (cfg : PackageConfig) (params : PostJobParams) : MoveCall :=
  let salaryArg :=
    match params.salary with
    | some v => if v = 0 then CallArg.pureVecU64 [] else CallArg.pureVecU64 [v]
    | none => CallArg.pureVecU64 []
  { target := cfg.packageId ++ "::minihub::post_job"
    arguments := [
      CallArg.obj cfg.jobBoardId,
      CallArg.obj params.employerProfileId,
      CallArg.pureStr params.title,
      CallArg.pureStr params.description,
      salaryArg,
      CallArg.pureU64 params.deadline] }

/-- The salary argument of a built `post_job` call: the fifth entry of the argument
list, when it is a `vector<u64>` literal. -/
def postJobSalaryVec (tx : MoveCall) : Option (List Nat) :=
  match tx.arguments[4]? with
  | some (CallArg.pureVecU64 l) => some l
  | _ => none

/-- Modelled from the spec: the deployed `post_job` entry point (the Move contract is
not part of this repository) stores its `vector<u64>` optional-salary argument as the
Job's option-typed salary field — "the optional-salary argument must be encoded as a
zero-length vector when absent and single-element vector when present", so the empty
vector becomes the unset salary and a one-element vector becomes that value. -/
def chainSalaryOfVec (vec : List Nat) : Option Nat :=
  match vec with
  | [] => none
  | v :: _ => some v

/-- A well-formed move-object envelope carrying the given field bag, as the ledger
renders one. -/
def mkMoveObjectResponse (fields : RawFields) : SuiResponse :=
  { data := some { content := some { dataType := "moveObject", fields := fields } } }

/-- Result record of the validation helpers. -/
structure ValidationResult where
  valid : Bool
  errors : List String
deriving DecidableEq

/-- Parameter record of `validatePostJobParams`. -/
structure PostJobValidationParams where
  title : String
  description : String
  deadline : Nat
deriving DecidableEq

/-- The JS `String.prototype.trim()`: strip whitespace characters from both ends
(executable character-list form). -/
def trimString (s : String) : String :=
  String.mk (((s.data.dropWhile Char.isWhitespace).reverse.dropWhile Char.isWhitespace).reverse)

/-- `validatePostJobParams`: pushes one field-level message per failed check, in source
order, and is valid iff no message was pushed. `!params.title || params.title.trim()
.length === 0` is the first check (the falsy-string disjunct and the trimmed-length
test), then the 200-character bound, the description check, and the deadline check
`params.deadline <= Date.now()`. -/
def validatePostJobParams (now : Nat) (params : PostJobValidationParams) : ValidationResult :=
  let titleEmptyErrors :=
    if params.title = "" || (trimString params.title).length = 0 then
      ["İş başlığı boş olamaz"] else []
  let titleLongErrors :=
    if params.title.length > 200 then ["İş başlığı 200 karakterden uzun olamaz"] else []
  let descriptionErrors :=
    if params.description = "" || (trimString params.description).length = 0 then
      ["İş açıklaması boş olamaz"] else []
  let deadlineErrors :=
    if params.deadline ≤ now then ["Son başvuru tarihi gelecekte olmalıdır"] else []
  let errors := titleEmptyErrors ++ titleLongErrors ++ descriptionErrors ++ deadlineErrors
  { valid := errors.length = 0, errors := errors }

/-- Mapping a decode over ids and keeping the non-null results is the order-preserving
partial map of the decode over the id list. -/
theorem map_reduceOption_eq_filterMap {α β : Type} (f : α → Option β) (l : List α) :
    (l.map f).reduceOption = l.filterMap f := by
  simp [List.reduceOption, List.filterMap_map, Function.id_comp]

/-- The `getActiveJobs` filter holds exactly on jobs whose decoded `isActive` is
literally `true` and whose decoded `hiredCandidate` is unset. -/
theorem activeJobFilter_eq_true (job : Job) :
    activeJobFilter job = true ↔ job.isActive = some true ∧ job.hiredCandidate = none := by
  unfold activeJobFilter
  cases h : job.isActive with
  | none => simp [h]
  | some b => cases b <;> simp [h, Option.isNone_iff_eq_none]

/-- C1: `getActiveJobs()` returns exactly the jobs of `getAllJobs()` with
`isActive == true` and `hiredCandidate == null`; its filter never reads the deadline,
so a job whose deadline is in the past is not excluded. -/
theorem C1_getActiveJobs_exact_filter :
    ∀ (L : Ledger) (cfg : PackageConfig) (job : Job),
      (job ∈ getActiveJobs L cfg ↔
        job ∈ getAllJobs L cfg ∧ job.isActive = some true ∧ job.hiredCandidate = none)
      ∧ ∀ d : Option Nat, activeJobFilter { job with deadline := d } = activeJobFilter job := by
  intro L cfg job
  refine ⟨?_, fun d => rfl⟩
  rw [getActiveJobs, List.mem_filter, activeJobFilter_eq_true]

/-- C10: an empty dynamic-field enumeration under a job id makes `getJobApplications`
return the empty list, of list type (never absent); the function is total, so no error
reaches the caller. -/
theorem C10_no_side_records_empty_list :
    ∀ (L : Ledger) (jobId : String),
      L.getDynamicFields jobId = [] → getJobApplications L jobId = [] := by
  intro L jobId h
  unfold getJobApplications
  rw [h]
  rfl

/-- Witness for C10 at a concrete ledger with no attachments. -/
theorem C10_no_side_records_empty_list_witness :
    getJobApplications { getObject := fun _ => { data := none }, getDynamicFields := fun _ => [] }
      "0xjob" = [] :=
  C10_no_side_records_empty_list
    { getObject := fun _ => { data := none }, getDynamicFields := fun _ => [] } "0xjob" rfl

/-- C9: a title that is empty or all whitespace trims to the empty string, so
`validatePostJobParams` reports `valid == false` with a non-empty error list. -/
theorem C9_empty_title_fails_validation :
    ∀ (now : Nat) (params : PostJobValidationParams),
      trimString params.title = "" →
      (validatePostJobParams now params).valid = false ∧
        (validatePostJobParams now params).errors ≠ [] := by
  intro now params h
  unfold validatePostJobParams
  have ht : (trimString params.title).length = 0 := by rw [h]; rfl
  simp [ht]

/-- Witness for C9 at a whitespace-only title. -/
theorem C9_empty_title_fails_validation_witness :
    (trimString "   " = "")
    ∧ (validatePostJobParams 0 { title := "   ", description := "d", deadline := 9 }).valid = false
    ∧ (validatePostJobParams 0 { title := "   ", description := "d", deadline := 9 }).errors ≠ [] := by
  have h := C9_empty_title_fails_validation 0
    { title := "   ", description := "d", deadline := 9 } (by decide)
  exact ⟨by decide, h.1, h.2⟩

/-- A job counted by `isJobActive` also passes the weaker `getActiveJobs` filter
(the latter drops the deadline conjunct). -/
theorem isJobActive_imp_activeJobFilter (now : Nat) (job : Job) :
    isJobActive now job = true → activeJobFilter job = true := by
  unfold isJobActive activeJobFilter
  intro h
  simp only [Bool.and_eq_true] at h ⊢
  exact ⟨h.1.1, h.1.2⟩

/-- Pointwise implication of filter predicates bounds the filtered lengths. -/
theorem length_filter_mono {α : Type} (p q : α → Bool) (l : List α)
    (h : ∀ a, p a = true → q a = true) :
    (l.filter p).length ≤ (l.filter q).length := by
  induction l with
  | nil => simp
  | cons a l ih =>
    rw [List.filter_cons, List.filter_cons]
    by_cases hp : p a = true
    · rw [if_pos hp, if_pos (h a hp)]
      simpa using ih
    · rw [if_neg hp]
      by_cases hq : q a = true
      · rw [if_pos hq]
        exact le_trans ih (by simp)
      · rw [if_neg hq]
        exact ih

/-- C5: for a fixed current time, every job counted in `getStatistics().activeJobs`
(counted via `isJobActive`) is returned by `getActiveJobs()`; an active, unhired job
with a past deadline passes the `getActiveJobs` filter but not `isJobActive`; hence
`getStatistics().activeJobs ≤ (getActiveJobs()).length` over the same job list. -/
theorem C5_statistics_vs_activeJobs :
    ∀ (L : Ledger) (cfg : PackageConfig) (now : Nat),
      ((getStatistics L cfg now).activeJobs ≤ (getActiveJobs L cfg).length)
      ∧ (∀ job, job ∈ getAllJobs L cfg → isJobActive now job = true →
          job ∈ getActiveJobs L cfg)
      ∧ (∀ job d, job.isActive = some true → job.hiredCandidate = none →
          job.deadline = some d → d < now →
          activeJobFilter job = true ∧ isJobActive now job = false) := by
  intro L cfg now
  refine ⟨?_, ?_, ?_⟩
  · show ((getAllJobs L cfg).filter (fun job => isJobActive now job)).length ≤
      ((getAllJobs L cfg).filter activeJobFilter).length
    exact length_filter_mono _ _ _ (fun job => isJobActive_imp_activeJobFilter now job)
  · intro job hmem hact
    rw [getActiveJobs, List.mem_filter]
    exact ⟨hmem, isJobActive_imp_activeJobFilter now job hact⟩
  · intro job d h1 h2 h3 h4
    constructor
    · simp [activeJobFilter, h1, h2]
    · simp [isJobActive, isJobDeadlinePassed, h1, h2, h3, h4]

/-- Shared concrete configuration for the evaluation witnesses. -/
def cfgW : PackageConfig :=
  { packageId := "0xpkg", jobBoardId := "0xboard", userRegistryId := "0xureg",
    employerRegistryId := "0xereg", clockId := "0x6" }

/-- Raw fields of a live job (active, unhired, deadline 100). -/
def jobFieldsLive : RawFields :=
  { id := some "0xj1", employer := some "0xemp", employer_profile_id := some "0xep",
    title := some "T1", description := some "D1", salary := some 100,
    application_count := some 0, hired_candidate := none, is_active := some true,
    deadline := some 100 }

/-- Raw fields of an active, unhired job whose deadline (5) is already past. -/
def jobFieldsPast : RawFields :=
  { id := some "0xj2", employer := some "0xemp", employer_profile_id := some "0xep",
    title := some "T2", description := some "D2", salary := none,
    application_count := some 1, hired_candidate := none, is_active := some true,
    deadline := some 5 }

/-- Raw fields of a job with a hired candidate. -/
def jobFieldsHired : RawFields :=
  { id := some "0xj3", employer := some "0xemp", employer_profile_id := some "0xep",
    title := some "T3", description := some "D3", salary := some 7,
    application_count := some 2, hired_candidate := some "0xcand", is_active := some true,
    deadline := some 100 }

/-- Raw fields of the board: count 4, four ids, one of which resolves to nothing. -/
def boardFieldsW : RawFields :=
  { id := some "0xboard", job_count := some 4,
    job_ids := some ["0xj1", "0xj2", "0xj3", "0xmissing"] }

/-- Raw fields of the user registry: count 3, one id resolving to nothing. -/
def userRegFieldsW : RawFields :=
  { id := some "0xureg", user_profiles := some ["0xu1", "0xu2", "0xmissing"],
    user_count := some 3 }

/-- Raw fields of the employer registry. -/
def employerRegFieldsW : RawFields :=
  { id := some "0xereg", employer_profiles := some ["0xe1"], employer_count := some 1 }

/-- Raw fields of user profile `0xu1`, owned by `0xa`. -/
def userFieldsW1 : RawFields :=
  { id := some "0xu1", user_address := some "0xa", name := some "N1", bioText := some "B1",
    avatar_url := some "", skills := some ["lean"], experience_years := some 1,
    portfolio_url := some "", created_at := some 0, updated_at := some 0 }

/-- Raw fields of user profile `0xu2`, owned by `0xb`. -/
def userFieldsW2 : RawFields :=
  { id := some "0xu2", user_address := some "0xb", name := some "N2", bioText := some "B2",
    avatar_url := some "", skills := some [], experience_years := some 2,
    portfolio_url := some "", created_at := some 0, updated_at := some 0 }

/-- Raw fields of employer profile `0xe1`, owned by `0xc`. -/
def employerFieldsW1 : RawFields :=
  { id := some "0xe1", employer_address := some "0xc", company_name := some "ACME",
    description := some "", logo_url := some "", website := some "", industry := some "tech",
    employee_count := some 5, founded_year := some 2020, created_at := some 0,
    updated_at := some 0 }

/-- Shared concrete ledger: a board with three resolvable jobs and one dangling id,
both registries, two user profiles and one employer profile; no side-records. -/
def ledgerW : Ledger :=
  { getObject := fun objectId =>
      if objectId = "0xboard" then mkMoveObjectResponse boardFieldsW
      else if objectId = "0xj1" then mkMoveObjectResponse jobFieldsLive
      else if objectId = "0xj2" then mkMoveObjectResponse jobFieldsPast
      else if objectId = "0xj3" then mkMoveObjectResponse jobFieldsHired
      else if objectId = "0xureg" then mkMoveObjectResponse userRegFieldsW
      else if objectId = "0xu1" then mkMoveObjectResponse userFieldsW1
      else if objectId = "0xu2" then mkMoveObjectResponse userFieldsW2
      else if objectId = "0xereg" then mkMoveObjectResponse employerRegFieldsW
      else if objectId = "0xe1" then mkMoveObjectResponse employerFieldsW1
      else { data := none }
    getDynamicFields := fun _ => [] }

/-- The decode of `jobFieldsLive`. -/
def jobLiveDec : Job :=
  { id := "0xj1", employer := some "0xemp", employerProfileId := some "0xep",
    title := some "T1", description := some "D1", salary := some 100,
    applicationCount := some 0, hiredCandidate := none, isActive := some true,
    deadline := some 100 }

/-- The decode of `jobFieldsPast`. -/
def jobPastDec : Job :=
  { id := "0xj2", employer := some "0xemp", employerProfileId := some "0xep",
    title := some "T2", description := some "D2", salary := none,
    applicationCount := some 1, hiredCandidate := none, isActive := some true,
    deadline := some 5 }

/-- The decode of `boardFieldsW`. -/
def boardDecW : JobBoard :=
  { id := "0xboard", jobCount := some 4, jobIds := ["0xj1", "0xj2", "0xj3", "0xmissing"] }

/-- The decode of `userRegFieldsW`. -/
def userRegDecW : UserRegistry :=
  { id := "0xureg", userProfiles := ["0xu1", "0xu2", "0xmissing"], userCount := some 3 }

/-- The decode of `employerRegFieldsW`. -/
def employerRegDecW : EmployerRegistry :=
  { id := "0xereg", employerProfiles := ["0xe1"], employerCount := some 1 }

/-- Witness for C5 at `ledgerW`, time 10: the count bound holds; the live job is both
counted and returned; the past-deadline job passes the `getActiveJobs` filter while
`isJobActive` rejects it. -/
theorem C5_statistics_vs_activeJobs_witness :
    ((getStatistics ledgerW cfgW 10).activeJobs ≤ (getActiveJobs ledgerW cfgW).length)
    ∧ jobLiveDec ∈ getActiveJobs ledgerW cfgW
    ∧ (activeJobFilter jobPastDec = true ∧ isJobActive 10 jobPastDec = false) := by
  have h := C5_statistics_vs_activeJobs ledgerW cfgW 10
  exact ⟨h.1, h.2.1 jobLiveDec (by decide) (by decide),
    h.2.2 jobPastDec 5 rfl rfl rfl (by decide)⟩

/-- C6: under the registry invariant "count equals the length of the stored id list",
each scan returns at most `count` records (dangling or undecodable ids are dropped). -/
theorem C6_scan_length_le_count :
    ∀ (L : Ledger) (cfg : PackageConfig),
      (∀ (b : JobBoard) (n : Nat), getJobBoard L cfg = some b →
        b.jobCount = some n → b.jobIds.length = n →
        (getAllJobs L cfg).length ≤ n)
      ∧ (∀ (r : UserRegistry) (n : Nat), getUserRegistry L cfg = some r →
        r.userCount = some n → r.userProfiles.length = n →
        (getAllUserProfiles L cfg).length ≤ n)
      ∧ (∀ (r : EmployerRegistry) (n : Nat), getEmployerRegistry L cfg = some r →
        r.employerCount = some n → r.employerProfiles.length = n →
        (getAllEmployerProfiles L cfg).length ≤ n) := by
  intro L cfg
  refine ⟨?_, ?_, ?_⟩
  · intro b n hb _ hlen
    unfold getAllJobs
    rw [hb]
    simpa [hlen] using List.reduceOption_length_le (b.jobIds.map (fun jobId => getJob L jobId))
  · intro r n hr _ hlen
    unfold getAllUserProfiles
    rw [hr]
    simpa [hlen] using
      List.reduceOption_length_le (r.userProfiles.map (fun profileId => getUserProfile L profileId))
  · intro r n hr _ hlen
    unfold getAllEmployerProfiles
    rw [hr]
    simpa [hlen] using
      List.reduceOption_length_le
        (r.employerProfiles.map (fun profileId => getEmployerProfile L profileId))

/-- Witness for C6 at `ledgerW`: the board names 4 ids with count 4 but only 3 decode;
the user registry names 3 with count 3 and 2 decode; the employer registry 1 of 1. -/
theorem C6_scan_length_le_count_witness :
    (getAllJobs ledgerW cfgW).length ≤ 4
    ∧ (getAllUserProfiles ledgerW cfgW).length ≤ 3
    ∧ (getAllEmployerProfiles ledgerW cfgW).length ≤ 1
    ∧ (getAllJobs ledgerW cfgW).length = 3
    ∧ (getAllUserProfiles ledgerW cfgW).length = 2 := by
  have h := C6_scan_length_le_count ledgerW cfgW
  exact ⟨h.1 boardDecW 4 (by decide) rfl rfl,
    h.2.1 userRegDecW 3 (by decide) rfl rfl,
    h.2.2 employerRegDecW 1 (by decide) rfl rfl, by decide, by decide⟩

/-- Dropping the `none` entries of a decode list, each survivor wrapped back in `some`,
is a subsequence of the original decode list: no reordering happens. -/
theorem reduceOption_map_some_sublist {α : Type} (l : List (Option α)) :
    (l.reduceOption.map some).Sublist l := by
  induction l with
  | nil => simp
  | cons a l ih =>
    cases a with
    | none => exact (List.sublist_cons_of_sublist none ih)
    | some x => simpa [List.reduceOption_cons_of_some] using List.Sublist.cons₂ (some x) ih

/-- C7: the registry scans return exactly the order-preserving subsequence of
successful decodes of the registry's id list — `filterMap` of the decode over the ids —
and (wrapped in `some`) a subsequence of the full decode list: no sorting or
reordering is applied. -/
theorem C7_scan_preserves_registry_order :
    ∀ (L : Ledger) (cfg : PackageConfig),
      (∀ b : JobBoard, getJobBoard L cfg = some b →
        getAllJobs L cfg = b.jobIds.filterMap (fun jobId => getJob L jobId)
        ∧ ((getAllJobs L cfg).map some).Sublist (b.jobIds.map (fun jobId => getJob L jobId)))
      ∧ (∀ r : UserRegistry, getUserRegistry L cfg = some r →
        getAllUserProfiles L cfg =
          r.userProfiles.filterMap (fun profileId => getUserProfile L profileId)
        ∧ ((getAllUserProfiles L cfg).map some).Sublist
            (r.userProfiles.map (fun profileId => getUserProfile L profileId))) := by
  intro L cfg
  constructor
  · intro b hb
    have hdef : getAllJobs L cfg = (b.jobIds.map (fun jobId => getJob L jobId)).reduceOption := by
      unfold getAllJobs
      rw [hb]
    refine ⟨?_, ?_⟩
    · rw [hdef, map_reduceOption_eq_filterMap]
    · rw [hdef]
      exact reduceOption_map_some_sublist _
  · intro r hr
    have hdef : getAllUserProfiles L cfg =
        (r.userProfiles.map (fun profileId => getUserProfile L profileId)).reduceOption := by
      unfold getAllUserProfiles
      rw [hr]
    refine ⟨?_, ?_⟩
    · rw [hdef, map_reduceOption_eq_filterMap]
    · rw [hdef]
      exact reduceOption_map_some_sublist _

/-- Witness for C7 at `ledgerW`: the scans equal the `filterMap` of the decode over
the stored id lists (the dangling ids drop out in place). -/
theorem C7_scan_preserves_registry_order_witness :
    getAllJobs ledgerW cfgW =
      boardDecW.jobIds.filterMap (fun jobId => getJob ledgerW jobId)
    ∧ getAllUserProfiles ledgerW cfgW =
      userRegDecW.userProfiles.filterMap (fun profileId => getUserProfile ledgerW profileId) := by
  have h := C7_scan_preserves_registry_order ledgerW cfgW
  exact ⟨(h.1 boardDecW (by decide)).1, (h.2 userRegDecW (by decide)).1⟩

/-- `find?` returns the first satisfying element: the list splits at the hit and every
earlier element fails the predicate. -/
theorem find?_eq_some_split {α : Type} (p : α → Bool) (l : List α) (a : α)
    (h : l.find? p = some a) :
    p a = true ∧ ∃ l₁ l₂, l = l₁ ++ a :: l₂ ∧ ∀ x ∈ l₁, p x = false := by
  induction l with
  | nil => simp at h
  | cons b l ih =>
    by_cases hb : p b = true
    · rw [List.find?_cons_of_pos _ hb] at h
      cases h
      exact ⟨hb, [], l, rfl, by simp⟩
    · rw [List.find?_cons_of_neg _ (by simpa using hb)] at h
      obtain ⟨hpa, l₁, l₂, hsplit, hl₁⟩ := ih h
      refine ⟨hpa, b :: l₁, l₂, by rw [hsplit]; rfl, ?_⟩
      intro x hx
      rcases List.mem_cons.1 hx with hxb | hx
      · rw [hxb]
        simpa using hb
      · exact hl₁ x hx

/-- C8: `getUserProfileByAddress` / `getEmployerProfileByAddress` either return the
first decoded profile in registry order whose owner address equals the query, or
`null` when no decoded profile has that address. -/
theorem C8_find_profile_by_address :
    ∀ (L : Ledger) (cfg : PackageConfig) (addr : String),
      (∀ r, getUserProfileByAddress L cfg addr = some r →
        r.userAddress = some addr ∧
        ∃ l₁ l₂, getAllUserProfiles L cfg = l₁ ++ r :: l₂ ∧
          ∀ p ∈ l₁, p.userAddress ≠ some addr)
      ∧ (getUserProfileByAddress L cfg addr = none →
          ∀ p ∈ getAllUserProfiles L cfg, p.userAddress ≠ some addr)
      ∧ (∀ r, getEmployerProfileByAddress L cfg addr = some r →
        r.employerAddress = some addr ∧
        ∃ l₁ l₂, getAllEmployerProfiles L cfg = l₁ ++ r :: l₂ ∧
          ∀ p ∈ l₁, p.employerAddress ≠ some addr)
      ∧ (getEmployerProfileByAddress L cfg addr = none →
          ∀ p ∈ getAllEmployerProfiles L cfg, p.employerAddress ≠ some addr) := by
  intro L cfg addr
  refine ⟨?_, ?_, ?_, ?_⟩
  · intro r h
    obtain ⟨hp, l₁, l₂, hsplit, hl₁⟩ := find?_eq_some_split _ _ _ h
    refine ⟨by simpa using hp, l₁, l₂, hsplit, ?_⟩
    intro p hpmem
    simpa using hl₁ p hpmem
  · intro h p hpmem
    have := List.find?_eq_none.1 h p hpmem
    simpa using this
  · intro r h
    obtain ⟨hp, l₁, l₂, hsplit, hl₁⟩ := find?_eq_some_split _ _ _ h
    refine ⟨by simpa using hp, l₁, l₂, hsplit, ?_⟩
    intro p hpmem
    simpa using hl₁ p hpmem
  · intro h p hpmem
    have := List.find?_eq_none.1 h p hpmem
    simpa using this

/-- The decode of `userFieldsW2`. -/
def userDecW2 : UserProfile :=
  { id := "0xu2", userAddress := some "0xb", name := some "N2", bioText := some "B2",
    avatarUrl := some "", skills := [], experienceYears := some 2,
    portfolioUrl := some "", createdAt := some 0, updatedAt := some 0 }

/-- Witness for C8 at `ledgerW`: the lookup for `0xb` returns the matching profile
`0xu2`, and the lookup for an absent address returns `null` with no decoded profile
owning it. -/
theorem C8_find_profile_by_address_witness :
    (userDecW2.userAddress = some "0xb"
      ∧ ∃ l₁ l₂, getAllUserProfiles ledgerW cfgW = l₁ ++ userDecW2 :: l₂ ∧
          ∀ p ∈ l₁, p.userAddress ≠ some "0xb")
    ∧ (∀ p ∈ getAllUserProfiles ledgerW cfgW, p.userAddress ≠ some "0xzz") := by
  have h1 := (C8_find_profile_by_address ledgerW cfgW "0xb").1 userDecW2 (by decide)
  have h2 := (C8_find_profile_by_address ledgerW cfgW "0xzz").2.1 (by decide)
  exact ⟨h1, h2⟩

/-- C2 (amended): the salary argument of the built `post_job` call is the one-element
vector `[v]` when the supplied salary `v` is present and nonzero, and the zero-length
vector when the salary is absent — or present but 0, which the builder's JS truthiness
test treats as absent. -/
theorem C2_salary_vector_encoding :
    ∀ (cfg : PackageConfig) (params : PostJobParams),
      ((params.salary = none ∨ params.salary = some 0) →
        postJobSalaryVec (createPostJobTransaction cfg params) = some [])
      ∧ (∀ v, params.salary = some v → v ≠ 0 →
        postJobSalaryVec (createPostJobTransaction cfg params) = some [v]) := by
  intro cfg params
  constructor
  · rintro (h | h) <;> simp [createPostJobTransaction, postJobSalaryVec, h]
  · intro v hv hne
    simp [createPostJobTransaction, postJobSalaryVec, hv, hne]

/-- The post-job parameter record with a present salary of 0. -/
def paramsSalaryZero : PostJobParams :=
  { employerProfileId := "0xep", title := "T", description := "D",
    salary := some 0, deadline := 123 }

/-- C2 counterexample: at the present salary 0 the built salary argument is the empty
vector, not the one-element vector `[0]` the claim requires for every present value. -/
theorem C2_salary_vector_encoding_cex :
    postJobSalaryVec (createPostJobTransaction cfgW paramsSalaryZero) = some []
    ∧ paramsSalaryZero.salary = some 0
    ∧ postJobSalaryVec (createPostJobTransaction cfgW paramsSalaryZero) ≠ some [0] := by
  exact ⟨rfl, rfl, by decide⟩

/-- Witness for C2 applied at concrete inputs: absent salary and salary 1000. -/
theorem C2_salary_vector_encoding_witness :
    postJobSalaryVec (createPostJobTransaction cfgW
      { paramsSalaryZero with salary := none }) = some []
    ∧ postJobSalaryVec (createPostJobTransaction cfgW
      { paramsSalaryZero with salary := some 1000 }) = some [1000] := by
  refine ⟨(C2_salary_vector_encoding cfgW _).1 (Or.inl rfl), ?_⟩
  exact (C2_salary_vector_encoding cfgW _).2 1000 rfl (by decide)

/-- C3 (amended): building a Job envelope whose on-chain salary field holds the value
the contract derives from the built salary vector, `getJob`'s salary projection
round-trips a nonzero supplied salary exactly, yields `undefined` when no salary was
supplied, and yields `undefined` (not 0) when the supplied salary was 0. -/
theorem C3_salary_roundtrip :
    ∀ (cfg : PackageConfig) (params : PostJobParams) (L : Ledger) (jobId uid : String)
      (f : RawFields) (vec : List Nat),
      postJobSalaryVec (createPostJobTransaction cfg params) = some vec →
      f.id = some uid →
      L.getObject jobId = mkMoveObjectResponse { f with salary := chainSalaryOfVec vec } →
      (params.salary = none → (getJob L jobId).map Job.salary = some none)
      ∧ (∀ v, params.salary = some v → v ≠ 0 →
          (getJob L jobId).map Job.salary = some (some v))
      ∧ (params.salary = some 0 → (getJob L jobId).map Job.salary = some none) := by
  intro cfg params L jobId uid f vec hvec hid hobj
  have hsal : (getJob L jobId).map Job.salary = some (chainSalaryOfVec vec) := by
    unfold getJob
    rw [hobj]
    unfold mkMoveObjectResponse
    simp [hid]
    cases chainSalaryOfVec vec <;> simp
  have hv : some vec = some (match params.salary with
      | some v => if v = 0 then ([] : List Nat) else [v]
      | none => []) := by
    rw [← hvec]
    cases hs : params.salary with
    | none => simp [createPostJobTransaction, postJobSalaryVec, hs]
    | some v =>
      by_cases h0 : v = 0 <;> simp [createPostJobTransaction, postJobSalaryVec, hs, h0]
  refine ⟨?_, ?_, ?_⟩
  · intro hs
    rw [hs] at hv
    simp only [Option.some_inj] at hv
    rw [hsal, hv]
    rfl
  · intro v hs hne
    rw [hs] at hv
    simp only [Option.some_inj, hne, if_false] at hv
    rw [hsal, hv]
    rfl
  · intro hs
    rw [hs] at hv
    simp only [Option.some_inj, if_pos rfl] at hv
    rw [hsal, hv]
    rfl

/-- A minimal raw-field bag for the round-trip job (only the required id). -/
def rtFields : RawFields := { id := some "0xjob" }

/-- A ledger holding one job whose on-chain salary field is what the contract derives
from the empty salary vector (the vector built for a supplied salary of 0). -/
def roundtripLedgerZero : Ledger :=
  { getObject := fun objectId =>
      if objectId = "0xjob" then
        mkMoveObjectResponse { rtFields with salary := chainSalaryOfVec [] }
      else { data := none }
    getDynamicFields := fun _ => [] }

/-- C3 counterexample: supplying salary 0 builds the empty vector; the Job built from
that encoding decodes with `salary` undefined, not the supplied 0. -/
theorem C3_salary_roundtrip_cex :
    postJobSalaryVec (createPostJobTransaction cfgW paramsSalaryZero) = some []
    ∧ paramsSalaryZero.salary = some 0
    ∧ (getJob roundtripLedgerZero "0xjob").map Job.salary = some none
    ∧ (some (none : Option Nat)) ≠ some (some 0) := by
  exact ⟨rfl, rfl, by decide, by decide⟩

/-- A ledger holding one job whose on-chain salary field is what the contract derives
from the one-element vector `[5]`. -/
def roundtripLedgerFive : Ledger :=
  { getObject := fun objectId =>
      if objectId = "0xjob" then
        mkMoveObjectResponse { rtFields with salary := chainSalaryOfVec [5] }
      else { data := none }
    getDynamicFields := fun _ => [] }

/-- Witness for C3 at supplied salary 5: the round trip returns 5. -/
theorem C3_salary_roundtrip_witness :
    (getJob roundtripLedgerFive "0xjob").map Job.salary = some (some 5) := by
  have h := C3_salary_roundtrip cfgW { paramsSalaryZero with salary := some 5 }
    roundtripLedgerFive "0xjob" "0xjob" rtFields [5]
    (by decide) rfl (by decide)
  exact h.2.1 5 rfl (by decide)

/-- The envelope shape every object getter requires before it can return a record:
data present, content present, content kind `moveObject`, and the `id` field present
(its absence makes `fields.id.id` raise, which the `catch` converts to `null`). -/
def wellFormedEnvelope (r : SuiResponse) : Bool :=
  match r.data with
  | none => false
  | some d =>
    match d.content with
    | none => false
    | some c => decide (c.dataType = "moveObject") && c.fields.id.isSome

/-- C4 (amended): the object getters return `null` whenever the envelope fails the
data/content/kind checks or misses the `id` field, and, being total, never surface an
exception; an envelope of the right kind missing another declared field decodes to a
non-null record with that field unset (see the counterexample), not to `null`. -/
theorem C4_malformed_envelope_decodes_null :
    ∀ (L : Ledger) (objectId : String) (cfg : PackageConfig),
      (wellFormedEnvelope (L.getObject objectId) = false →
        getJob L objectId = none ∧ getUserProfile L objectId = none ∧
          getEmployerProfile L objectId = none)
      ∧ (wellFormedEnvelope (L.getObject cfg.jobBoardId) = false → getJobBoard L cfg = none) := by
  intro L objectId cfg
  constructor
  · intro h
    unfold wellFormedEnvelope at h
    unfold getJob getUserProfile getEmployerProfile
    rcases hd : (L.getObject objectId).data with _ | ⟨_ | ⟨dt, flds⟩⟩
    · simp [hd]
    · simp [hd]
    · rw [hd] at h
      simp only [Bool.and_eq_false_iff, decide_eq_false_iff_not] at h
      rcases h with hdt | hfid
      · simp [hd, hdt]
      · have hn : flds.id = none := by
          cases hq : flds.id
          · rfl
          · rw [hq] at hfid
            simp at hfid
        simp [hd, hn]
  · intro h
    unfold wellFormedEnvelope at h
    unfold getJobBoard
    rcases hd : (L.getObject cfg.jobBoardId).data with _ | ⟨_ | ⟨dt, flds⟩⟩
    · simp [hd]
    · simp [hd]
    · rw [hd] at h
      simp only [Bool.and_eq_false_iff, decide_eq_false_iff_not] at h
      rcases h with hdt | hfid
      · simp [hd, hdt]
      · have hn : flds.id = none := by
          cases hq : flds.id
          · rfl
          · rw [hq] at hfid
            simp at hfid
        simp [hd, hn]

/-- A ledger whose every object has content of the wrong declared kind. -/
def wrongKindLedger : Ledger :=
  { getObject := fun _ =>
      { data := some { content := some { dataType := "coin", fields := { id := some "0x1" } } } }
    getDynamicFields := fun _ => [] }

/-- Witness for C4 at a wrong-kind envelope: all four getters return `null`. -/
theorem C4_malformed_envelope_decodes_null_witness :
    (getJob wrongKindLedger "0xany" = none ∧ getUserProfile wrongKindLedger "0xany" = none ∧
      getEmployerProfile wrongKindLedger "0xany" = none)
    ∧ getJobBoard wrongKindLedger cfgW = none := by
  have h := C4_malformed_envelope_decodes_null wrongKindLedger "0xany" cfgW
  exact ⟨h.1 (by decide), h.2 (by decide)⟩

/-- The field bag of an envelope that misses every declared Job field except the id. -/
def malFields : RawFields := { id := some "0xmal" }

/-- A ledger holding one right-kind envelope that misses required Job fields
(`title`, `employer`, …). -/
def missingFieldLedger : Ledger :=
  { getObject := fun objectId =>
      if objectId = "0xmal" then mkMoveObjectResponse malFields else { data := none }
    getDynamicFields := fun _ => [] }

/-- C4 counterexample: an envelope of the structured-record kind missing the required
`title` (and `employer`) field does not make `getJob` return `null`: the getter
returns a record with those fields unset, refuting the claim's
"missing required field ⇒ null" case. -/
theorem C4_malformed_envelope_decodes_null_cex :
    malFields.title = none ∧ malFields.employer = none
    ∧ missingFieldLedger.getObject "0xmal" = mkMoveObjectResponse malFields
    ∧ getJob missingFieldLedger "0xmal" ≠ none := by
  exact ⟨rfl, rfl, by decide, by decide⟩
